import Mathlib

/-
Verification of the Atlantic.Net dynamic-inventory script
(`anet_inventory.py`, class `AtlanticNetInventory`).

The script manipulates JSON-like Python values (dicts, lists, strings,
ints).  We embed those values as the mutual inductive family
`PyVal` / `PyList` / `PyDict` below; Python dicts are ordered
association sequences whose keys are ints or strings (the only key
types the script ever produces).  Python exceptions are embedded as
`Except PyError`.  Each definition follows the correspondingly named
method of the source file.
-/

/-- Keys of Python dicts as used by the script: either an int (the
cloudserver id shortcut group) or a string (every other key). -/
inductive PyKey where
  | int (n : Int)
  | str (s : String)
deriving DecidableEq

mutual
/-- JSON-like Python values: strings, ints, booleans, None, lists and
dicts, the value universe the script's data flows through. -/
inductive PyVal where
  | str (s : String)
  | int (n : Int)
  | boolean (b : Bool)
  | null
  | list (xs : PyList)
  | dict (es : PyDict)
deriving DecidableEq

/-- A Python list of `PyVal`s (spelled as its own inductive so that all
recursions over values are structural). -/
inductive PyList where
  | nil
  | cons (hd : PyVal) (tl : PyList)
deriving DecidableEq

/-- A Python dict: an insertion-ordered association sequence. -/
inductive PyDict where
  | nil
  | cons (k : PyKey) (v : PyVal) (tl : PyDict)
deriving DecidableEq
end

/-- Convenience conversion from a Lean list literal. -/
def PyList.ofList : List PyVal → PyList
  | [] => .nil
  | x :: xs => .cons x (PyList.ofList xs)

/-- Convenience conversion from a Lean list literal of entries. -/
def PyDict.ofList : List (PyKey × PyVal) → PyDict
  | [] => .nil
  | (k, v) :: xs => .cons k v (PyDict.ofList xs)

/-- Lookup in a Python dict (keys are unique in dicts the script builds,
so first match suffices). -/
def dictGet : PyDict → PyKey → Option PyVal
  | .nil, _ => none
  | .cons k0 v0 tl, k => if k0 = k then some v0 else dictGet tl k

/-- Python dict assignment `d[k] = v`: update in place if the key is
present (keeping its position), otherwise append at the end. -/
def dictSet : PyDict → PyKey → PyVal → PyDict
  | .nil, k, v => .cons k v .nil
  | .cons k0 v0 tl, k, v =>
      if k0 = k then .cons k0 v tl else .cons k0 v0 (dictSet tl k v)

/-- Membership test on a Python dict (`k in d`). -/
def dictHasKey : PyDict → PyKey → Bool
  | .nil, _ => false
  | .cons k0 _ tl, k => if k0 = k then true else dictHasKey tl k

/-- Number of entries of a dict (`len(d)`). -/
def dictLen : PyDict → Nat
  | .nil => 0
  | .cons _ _ tl => dictLen tl + 1

/-- Number of elements of a list (`len(l)`). -/
def listLen : PyList → Nat
  | .nil => 0
  | .cons _ tl => listLen tl + 1

/-- Python `l.append(x)`. -/
def listAppend : PyList → PyVal → PyList
  | .nil, x => .cons x .nil
  | .cons h tl, x => .cons h (listAppend tl x)

/-- Python exceptions that the modelled code can raise. -/
inductive PyError where
  | ioError
  | valueError
  | keyError
  | typeError
deriving DecidableEq

/-- Subscript read `v[k]`.  The script only subscripts dicts (its
`data` and `inventory` values and the group entries) with int or string
keys; subscripting a non-dict with such a key raises `TypeError`, a
missing dict key raises `KeyError`. -/
def pyGet (v : PyVal) (k : PyKey) : Except PyError PyVal :=
  match v with
  | .dict es =>
      match dictGet es k with
      | some w => .ok w
      | none => .error .keyError
  | _ => .error .typeError

/-- Subscript assignment `v[k] = x`, defined on dicts; on any other
value the script's uses would raise `TypeError`. -/
def pySet (v : PyVal) (k : PyKey) (x : PyVal) : Except PyError PyVal :=
  match v with
  | .dict es => .ok (.dict (dictSet es k x))
  | _ => .error .typeError

/-- Python `len(v)`, raising `TypeError` on ints, booleans and None. -/
def pyLen (v : PyVal) : Except PyError Nat :=
  match v with
  | .str s => .ok s.length
  | .list xs => .ok (listLen xs)
  | .dict es => .ok (dictLen es)
  | _ => .error .typeError

/-- Require a string (string concatenation and `re.sub` raise
`TypeError` on non-strings). -/
def pyStr (v : PyVal) : Except PyError String :=
  match v with
  | .str s => .ok s
  | _ => .error .typeError

/-- Use a value as a dict key; lists and dicts are unhashable
(`TypeError`).  The records the script keys on carry int ids and
string names. -/
def pyKeyOf (v : PyVal) : Except PyError PyKey :=
  match v with
  | .str s => .ok (.str s)
  | .int n => .ok (.int n)
  | _ => .error .typeError

/-- Python truthiness of a value (`if group:`). -/
def pyTruthy (v : PyVal) : Bool :=
  match v with
  | .str s => !(s == "")
  | .int n => !(n == 0)
  | .boolean b => b
  | .null => false
  | .list xs => !(listLen xs == 0)
  | .dict es => !(dictLen es == 0)

/-- Truthiness of an optional string (`os.getenv` / argparse results:
`None` and the empty string are falsy). -/
def optTruthy (o : Option String) : Bool :=
  match o with
  | some s => !(s == "")
  | none => false

/-- Character class `[A-Za-z0-9\-\.]` of the `to_safe` regex. -/
def is_safe_char (c : Char) : Bool :=
  (decide ('A' ≤ c) && decide (c ≤ 'Z')) ||
  (decide ('a' ≤ c) && decide (c ≤ 'z')) ||
  (decide ('0' ≤ c) && decide (c ≤ '9')) ||
  c == '-' || c == '.'

/-- Method `to_safe`: `re.sub("[^A-Za-z0-9\-\.]", "_", word)` — every
character outside the class is replaced by an underscore (written over
the character list so that it evaluates by kernel reduction). -/
def to_safe (word : String) : String :=
  String.mk (word.data.map (fun c => if is_safe_char c then c else '_'))

/-- Filesystem facts consulted by `is_cache_valid`: whether the cache
file exists, its modification time, and the current time (`time()`);
times are modelled as integer seconds (the comparison below only uses
the ordered additive structure, so nothing depends on fractional
times). -/
structure CacheEnv where
  file_is_present : Bool
  mod_time : Int
  current_time : Int
deriving DecidableEq

/-- Method `is_cache_valid`: the file exists and
`mod_time + cache_max_age > current_time`. -/
def is_cache_valid (env : CacheEnv) (cache_max_age : Int) : Bool :=
  if env.file_is_present then
    if env.mod_time + cache_max_age > env.current_time then true else false
  else false

/-- State of the cache file as the next read will see it: `ioError`
(missing or unreadable: `open`/`read` raise `IOError`), `badJson`
(readable but `json.loads` raises `ValueError`), or `parsed v`
(`json.loads` succeeds with value `v`). -/
inductive CacheFile where
  | ioError
  | badJson
  | parsed (v : PyVal)
deriving DecidableEq

/-- Tail of `load_from_cache`: `self.data = data['data']` and
`self.inventory = data['inventory']` (these subscripts are outside the
`try`, so their exceptions propagate). -/
def snapshot_assign (data : PyVal) : Except PyError (PyVal × PyVal) :=
  match pyGet data (.str "data") with
  | .error e => .error e
  | .ok d =>
      match pyGet data (.str "inventory") with
      | .error e => .error e
      | .ok inv => .ok (d, inv)

/-- Method `load_from_cache`: only `IOError` is caught (yielding the
empty snapshot); a `json.loads` failure propagates. -/
def load_from_cache : CacheFile → Except PyError (PyVal × PyVal)
  | .ioError =>
      snapshot_assign
        (.dict (.cons (.str "data") (.dict .nil)
          (.cons (.str "inventory") (.dict .nil) .nil)))
  | .badJson => .error .valueError
  | .parsed v => snapshot_assign v

/-- How `json.dumps` renders a dict key: ints become their decimal
string, strings stay themselves. -/
def dumpKey : PyKey → String
  | .int n => toString n
  | .str s => s

mutual
/-- Net effect on a value of serializing it with `json.dumps` and
parsing the result back with `json.loads` (the external `json`
library): every dict key is rendered as a string, everything else is
preserved.  Key order inside the serialized file (`sort_keys=True`) is
not tracked: no modelled computation inspects it, and the snapshot
dicts never contain an int key alongside its decimal-string twin, so
no key collision arises. -/
def jsonRoundTrip : PyVal → PyVal
  | .str s => .str s
  | .int n => .int n
  | .boolean b => .boolean b
  | .null => .null
  | .list xs => .list (jsonRoundTripL xs)
  | .dict es => .dict (jsonRoundTripD es)

/-- Pointwise `jsonRoundTrip` over a list. -/
def jsonRoundTripL : PyList → PyList
  | .nil => .nil
  | .cons x xs => .cons (jsonRoundTrip x) (jsonRoundTripL xs)

/-- Pointwise `jsonRoundTrip` over a dict, stringifying keys. -/
def jsonRoundTripD : PyDict → PyDict
  | .nil => .nil
  | .cons k v tl => .cons (.str (dumpKey k)) (jsonRoundTrip v) (jsonRoundTripD tl)
end

/-- Method `write_to_cache`: serializes
`{'data': self.data, 'inventory': self.inventory}` to the cache file;
the next `json.loads` of that file succeeds with the round-tripped
value. -/
def write_to_cache (data inventory : PyVal) : CacheFile :=
  CacheFile.parsed
    (jsonRoundTrip (.dict (.cons (.str "data") data
      (.cons (.str "inventory") inventory .nil))))

mutual
/-- Every dict key occurring anywhere inside the value is a string
(the shape on which JSON serialization is lossless). -/
def strKeys : PyVal → Bool
  | .str _ => true
  | .int _ => true
  | .boolean _ => true
  | .null => true
  | .list xs => strKeysL xs
  | .dict es => strKeysD es

/-- `strKeys` over every element of a list. -/
def strKeysL : PyList → Bool
  | .nil => true
  | .cons x xs => strKeys x && strKeysL xs

/-- `strKeys` over a dict: each key is a string and each value
satisfies `strKeys`. -/
def strKeysD : PyDict → Bool
  | .nil => true
  | .cons (.str _) v tl => strKeys v && strKeysD tl
  | .cons (.int _) _ _ => false
end

/-- The four resource kinds managed by the refresh policy. -/
inductive ResourceKind where
  | cloudservers
  | images
  | plans
  | ssh_keys
deriving DecidableEq

/-- Parsed command-line arguments (`self.args`, the result of
`argparse`): booleans for the `store_true` flags, optional strings for
the `store` options. -/
structure Args where
  list : Bool
  host : Option String
  all : Bool
  cloudservers : Bool
  images : Bool
  plans : Bool
  ssh_keys : Bool
  pretty : Bool
  cache_path : Option String
  cache_max_age : Option String
  force_cache : Bool
  refresh_cache : Bool
  env : Bool
  public_key : Option String
  private_key : Option String
deriving DecidableEq

/-- The external API client (`AnetManager` of the `anetpy` library),
modelled by the values its calls return during this (synchronous,
single-account) invocation. -/
structure AnetManager where
  all_active_cloudservers : PyVal
  all_images : PyVal
  plans : PyVal
  all_ssh_keys : PyVal
  show_cloudserver : Int → PyVal

/-- The mutable state `load_from_atlantic_net` works on: `self.data`
and the `self.cache_refreshed` flag. -/
structure FetchState where
  data : PyVal
  cache_refreshed : Bool
deriving DecidableEq

/-- One of the four trailing `if` blocks of `load_from_atlantic_net`:
when `cond` holds, fetch (recording the kind as a call), store the
result under `key` in `self.data`, and set `self.cache_refreshed`. -/
def fetchStep (cond : Bool) (key : String) (fetched : PyVal) (kind : ResourceKind)
    (acc : Except PyError (FetchState × List ResourceKind)) :
    Except PyError (FetchState × List ResourceKind) :=
  match acc with
  | .error e => .error e
  | .ok (st, calls) =>
      if cond then
        match pySet st.data (.str key) fetched with
        | .error e => .error e
        | .ok d => .ok (FetchState.mk d true, calls ++ [kind])
      else .ok (st, calls)

/-- Method `load_from_atlantic_net`: force-cache returns immediately; a
valid cache short-circuits any request that is neither `cloudservers`
nor all-kinds (`None`); refresh-cache then widens the request to
all-kinds; finally each matching kind is fetched and stored.  The
returned list records the fetch calls in order. -/
def load_from_atlantic_net (args : Args) (envc : CacheEnv) (cache_max_age : Int)
    (mgr : AnetManager) (st : FetchState) (resource : Option ResourceKind) :
    Except PyError (FetchState × List ResourceKind) :=
  if args.force_cache then .ok (st, [])
  else if is_cache_valid envc cache_max_age &&
      !(resource == some .cloudservers || resource == none) then .ok (st, [])
  else
    let r := if args.refresh_cache then none else resource
    let s0 : Except PyError (FetchState × List ResourceKind) := .ok (st, [])
    let s1 := fetchStep (r == some .cloudservers || r == none) "cloudservers"
      mgr.all_active_cloudservers .cloudservers s0
    let s2 := fetchStep (r == some .images || r == none) "images"
      mgr.all_images .images s1
    let s3 := fetchStep (r == some .plans || r == none) "plans"
      mgr.plans .plans s2
    fetchStep (r == some .ssh_keys || r == none) "ssh_keys"
      mgr.all_ssh_keys .ssh_keys s3

/-- A freshly created group value `{'hosts': [], 'vars': {}}`. -/
def emptyGroup : PyVal :=
  .dict (.cons (.str "hosts") (.list .nil) (.cons (.str "vars") (.dict .nil) .nil))

/-- Statement `self.inventory[g]['hosts'].append(dest)`: the group must
already be present and have the `{'hosts': list, ...}` shape (the
script guarantees this by creating absent groups first; on other
shapes Python would raise, which the `Except` error mirrors). -/
def groupHostsAppend (inv : PyDict) (g : PyKey) (dest : PyVal) :
    Except PyError PyDict :=
  match dictGet inv g with
  | none => .error .keyError
  | some (.dict es) =>
      match dictGet es (.str "hosts") with
      | some (.list hs) =>
          .ok (dictSet inv g (.dict (dictSet es (.str "hosts") (.list (listAppend hs dest)))))
      | some _ => .error .typeError
      | none => .error .keyError
  | some _ => .error .typeError

/-- Pattern `if group not in self.inventory: self.inventory[group] =
{'hosts': [], 'vars': {}}` followed by the hosts append. -/
def groupEnsureAppend (inv : PyDict) (g : PyKey) (dest : PyVal) :
    Except PyError PyDict :=
  let inv2 := if dictHasKey inv g then inv else dictSet inv g emptyGroup
  groupHostsAppend inv2 g dest

/-- The "groups that are always present" loop of `build_inventory`. -/
def appendGroups (dest : PyVal) (inv : PyDict) : List String → Except PyError PyDict
  | [] => .ok inv
  | g :: gs =>
      match groupEnsureAppend inv (.str g) dest with
      | .error e => .error e
      | .ok inv2 => appendGroups dest inv2 gs

/-- One arm of the "groups that are not always present" loop: for a
truthy raw field value, ensure-and-append to `image_<to_safe(value)>`
(the value must be a string for `to_safe`). -/
def maybeImageGroup (dest : PyVal) (inv : PyDict) (v : PyVal) : Except PyError PyDict :=
  if pyTruthy v then
    match pyStr v with
    | .error e => .error e
    | .ok s => groupEnsureAppend inv (.str ("image_" ++ to_safe s)) dest
  else .ok inv

/-- Body of the per-cloudserver loop of `build_inventory`. -/
def process_cloudserver (inv : PyDict) (cs : PyVal) : Except PyError PyDict :=
  match pyGet cs (.str "vm_ip_address") with
  | .error e => .error e
  | .ok dest =>
  match groupHostsAppend inv (.str "all") dest with
  | .error e => .error e
  | .ok inv1 =>
  match pyGet cs (.str "id") with
  | .error e => .error e
  | .ok idv =>
  match pyKeyOf idv with
  | .error e => .error e
  | .ok idk =>
  let inv2 := dictSet inv1 idk (.list (.cons dest .nil))
  match pyGet cs (.str "name") with
  | .error e => .error e
  | .ok namev =>
  match pyKeyOf namev with
  | .error e => .error e
  | .ok namek =>
  let inv3 := dictSet inv2 namek (.list (.cons dest .nil))
  match pyGet cs (.str "vm_image") with
  | .error e => .error e
  | .ok imagev =>
  match pyStr imagev with
  | .error e => .error e
  | .ok imageS =>
  match pyGet cs (.str "vm_plan_name") with
  | .error e => .error e
  | .ok planv =>
  match pyStr planv with
  | .error e => .error e
  | .ok planS =>
  match pyGet cs (.str "vm_image_display_name") with
  | .error e => .error e
  | .ok distrov =>
  match pyStr distrov with
  | .error e => .error e
  | .ok distroS =>
  match pyGet cs (.str "vm_status") with
  | .error e => .error e
  | .ok statusv =>
  match pyStr statusv with
  | .error e => .error e
  | .ok statusS =>
  match appendGroups dest inv3
      ["image_" ++ to_safe imageS, "plan_" ++ planS,
       "distro_" ++ to_safe distroS, "status_" ++ statusS] with
  | .error e => .error e
  | .ok inv4 =>
  match maybeImageGroup dest inv4 imagev with
  | .error e => .error e
  | .ok inv5 => maybeImageGroup dest inv5 distrov

/-- The `for cloudserver in self.data['cloudservers']` loop. -/
def build_inventory_loop (inv : PyDict) : PyList → Except PyError PyDict
  | .nil => .ok inv
  | .cons cs tl =>
      match process_cloudserver inv cs with
      | .error e => .error e
      | .ok inv2 => build_inventory_loop inv2 tl

/-- Method `build_inventory`: starts from the reserved `all` (with the
configured group variables) and `_meta.hostvars` entries, then folds
the per-cloudserver loop over the current cloudserver list. -/
def build_inventory (group_variables : PyVal) (cloudservers : PyList) :
    Except PyError PyDict :=
  build_inventory_loop
    (.cons (.str "all")
      (.dict (.cons (.str "hosts") (.list .nil)
        (.cons (.str "vars") group_variables .nil)))
      (.cons (.str "_meta")
        (.dict (.cons (.str "hostvars") (.dict .nil) .nil)) .nil))
    cloudservers

/-- The `anet_inventory.ini` file: `config.has_option` is `isSome`, the
stored value follows.  `group_variables` is the `ast.literal_eval` of
the option text. -/
structure IniConfig where
  public_key : Option String
  private_key : Option String
  cache_path : Option String
  cache_max_age : Option Int
  group_variables : Option PyVal
deriving DecidableEq

/-- The process environment as `os.getenv` sees it (`none` when the
variable is unset). -/
structure EnvVars where
  anet_public_key : Option String
  anet_private_key : Option String
deriving DecidableEq

/-- The instance attributes accumulated across `read_settings`,
`read_environment` and `read_cli_args`; an `Option` models a possibly
still-unset attribute (`hasattr` is `isSome`). -/
structure Settings where
  public_key : Option String
  private_key : Option String
  api_token : Option String
  cache_path : String
  cache_max_age : Int
  group_variables : PyVal
deriving DecidableEq

/-- The defaults installed at the top of `__init__`: `cache_path '.'`,
`cache_max_age 0`, empty `group_variables`; no credential attribute
exists yet. -/
def initialSettings : Settings :=
  Settings.mk none none none "." 0 (.dict .nil)

/-- Method `read_settings`: each present INI option overwrites the
corresponding attribute. -/
def read_settings (ini : IniConfig) (s : Settings) : Settings :=
  let s1 := match ini.public_key with
    | some v => { s with public_key := some v }
    | none => s
  let s2 := match ini.private_key with
    | some v => { s1 with private_key := some v }
    | none => s1
  let s3 := match ini.cache_path with
    | some v => { s2 with cache_path := v }
    | none => s2
  let s4 := match ini.cache_max_age with
    | some v => { s3 with cache_max_age := v }
    | none => s3
  match ini.group_variables with
  | some v => { s4 with group_variables := v }
  | none => s4

/-- Method `read_environment`, exactly as written in the source: a
truthy `ANET_PUBLIC_KEY` is stored into `self.api_token`, and a truthy
`ANET_PRIVATE_KEY` is also stored into `self.api_token` — neither
assignment touches `public_key` or `private_key`. -/
def read_environment (envv : EnvVars) (s : Settings) : Settings :=
  let s1 := if optTruthy envv.anet_public_key then
      { s with api_token := envv.anet_public_key }
    else s
  if optTruthy envv.anet_private_key then
    { s1 with api_token := envv.anet_private_key }
  else s1

/-- Method `read_cli_args` after `parse_args`: truthy `--public_key` /
`--private_key` overwrite the credentials, and `--list` is forced on
when no other view was requested. -/
def read_cli_args (args : Args) (s : Settings) : Settings × Args :=
  let s1 := if optTruthy args.public_key then
      { s with public_key := args.public_key }
    else s
  let s2 := if optTruthy args.private_key then
      { s1 with private_key := args.private_key }
    else s1
  let args2 := if !args.cloudservers && !args.images && !args.plans &&
      !args.ssh_keys && !args.all && !(optTruthy args.host) then
      { args with list := true }
    else args
  (s2, args2)

/-- Python 2 `int(s)`: optional surrounding whitespace, an optional
sign, then at least one decimal digit; anything else raises
`ValueError`. -/
def pyIntOfString (s : String) : Except PyError Int :=
  let t := s.trim
  let p := if t.startsWith "-" || t.startsWith "+" then
      ((if t.startsWith "-" then (-1 : Int) else 1), t.drop 1)
    else ((1 : Int), t)
  if decide (p.2.length > 0) && p.2.all Char.isDigit then
    .ok (p.1 * (Int.ofNat (p.2.foldl (fun acc c => acc * 10 + (c.toNat - 48)) 0)))
  else .error .valueError

/-- The `for k, v in cloudserver.items(): info['anet_'+k] = v` loop of
`load_cloudserver_variables_for_host`; a non-string key would fail the
string concatenation. -/
def anetPrefixD : PyDict → Except PyError PyDict
  | .nil => .ok .nil
  | .cons (.str k) v tl =>
      match anetPrefixD tl with
      | .ok tl2 => .ok (.cons (.str ("anet_" ++ k)) v tl2)
      | .error e => .error e
  | .cons (.int _) _ _ => .error .typeError

/-- Method `load_cloudserver_variables_for_host`: parse the `--host`
value as an int, fetch that one cloudserver live, and republish every
field under an `anet_` prefix. -/
def load_cloudserver_variables_for_host (args : Args) (mgr : AnetManager) :
    Except PyError PyVal :=
  match pyIntOfString ((args.host).getD "") with
  | .error e => .error e
  | .ok h =>
      match mgr.show_cloudserver h with
      | .dict es =>
          match anetPrefixD es with
          | .error e => .error e
          | .ok info => .ok (.dict (.cons (.str "cloudserver") (.dict info) .nil))
      | _ => .error .typeError

/-- Fatal outcomes of a run: the missing-credentials exit, the
`--force-cache`-with-empty-cache exit, or an uncaught Python
exception. -/
inductive RunError where
  | credentialsMissing
  | cacheEmptyForced
  | pyErr (e : PyError)
deriving DecidableEq

/-- Successful outcomes: the `--env` credential printout (exit 0 before
any cache or fetch logic), or a served view with the JSON value
printed, the fetch calls performed, whether `write_to_cache` ran, and
the state of the cache file after the run. -/
inductive RunOutcome where
  | envOutput (public_key private_key : String)
  | output (json_data : PyVal) (fetches : List ResourceKind)
      (wrote_cache : Bool) (final_cache_file : CacheFile)
deriving DecidableEq

/-- The run guard at line 202 is `if self.is_cache_valid:` — the bound
method object itself, never called, and a bound method is always
truthy. -/
def is_cache_valid_method_truthy : Bool := true

/-- The cache-management block of `__init__` (lines 199-207): because
the guard tests the method object (see
`is_cache_valid_method_truthy`), the snapshot is loaded no matter how
stale it is — the validity inputs `envc`, `m` are never consulted.
After the load, an empty `data` together with `--force-cache` is the
fatal cache-empty exit. -/
def manage_cache (args : Args) (file : CacheFile) (envc : CacheEnv) (m : Int) :
    Except RunError (PyVal × PyVal) :=
  if is_cache_valid_method_truthy then
    match load_from_cache file with
    | .error e => .error (.pyErr e)
    | .ok (d, inv) =>
        match pyLen d with
        | .error e => .error (.pyErr e)
        | .ok n =>
            if n == 0 && args.force_cache then .error .cacheEmptyForced
            else .ok (d, inv)
  else .ok (.dict .nil, .dict .nil)

/-- Lines 235-241: `if self.cache_refreshed: self.write_to_cache()`,
then the chosen view is printed.  Returns the view value, the fetch
calls, whether the snapshot was written, and the resulting cache
file. -/
def finish (st : FetchState) (inventory : PyVal) (json_data : PyVal)
    (calls : List ResourceKind) (file : CacheFile) : RunOutcome :=
  if st.cache_refreshed then
    .output json_data calls true (write_to_cache st.data inventory)
  else .output json_data calls false file

/-- One of the four single-kind view branches (`--cloudservers`,
`--images`, `--plans`, `--ssh-keys`): refresh the kind, then emit
`{kind: self.data[kind]}`. -/
def view_resource (args : Args) (envc : CacheEnv) (m : Int) (mgr : AnetManager)
    (st0 : FetchState) (inv : PyVal) (file : CacheFile) (key : String)
    (k : ResourceKind) : Except RunError RunOutcome :=
  match load_from_atlantic_net args envc m mgr st0 (some k) with
  | .error e => .error (.pyErr e)
  | .ok (st, calls) =>
      match pyGet st.data (.str key) with
      | .error e => .error (.pyErr e)
      | .ok v =>
          .ok (finish st inv (.dict (.cons (.str key) v .nil)) calls file)

/-- The view dispatch of `__init__` (lines 211-233), in source `elif`
order, each branch ending in the cache write-back decision
(`finish`). -/
def dispatch (args : Args) (envc : CacheEnv) (m : Int) (mgr : AnetManager)
    (gv : PyVal) (d inv : PyVal) (file : CacheFile) : Except RunError RunOutcome :=
  let st0 := FetchState.mk d false
  if args.cloudservers then
    view_resource args envc m mgr st0 inv file "cloudservers" .cloudservers
  else if args.images then
    view_resource args envc m mgr st0 inv file "images" .images
  else if args.plans then
    view_resource args envc m mgr st0 inv file "plans" .plans
  else if args.ssh_keys then
    view_resource args envc m mgr st0 inv file "ssh_keys" .ssh_keys
  else if args.all then
    match load_from_atlantic_net args envc m mgr st0 none with
    | .error e => .error (.pyErr e)
    | .ok (st, calls) => .ok (finish st inv st.data calls file)
  else if optTruthy args.host then
    match load_cloudserver_variables_for_host args mgr with
    | .error e => .error (.pyErr e)
    | .ok j => .ok (finish st0 inv j [] file)
  else
    match load_from_atlantic_net args envc m mgr st0 (some .cloudservers) with
    | .error e => .error (.pyErr e)
    | .ok (st, calls) =>
        match pyGet st.data (.str "cloudservers") with
        | .error e => .error (.pyErr e)
        | .ok csv =>
            match csv with
            | .list css =>
                match build_inventory gv css with
                | .error e => .error (.pyErr e)
                | .ok invD => .ok (finish st (.dict invD) (.dict invD) calls file)
            | _ => .error (.pyErr .typeError)

/-- The whole `__init__` execution path: resolve configuration from the
three sources, verify credentials, honour `--env`, run cache
management, dispatch the requested view, and decide the cache
write-back. -/
def run (ini : IniConfig) (envv : EnvVars) (args0 : Args) (file : CacheFile)
    (envc : CacheEnv) (mgr : AnetManager) : Except RunError RunOutcome :=
  let s0 := read_settings ini initialSettings
  let s1 := read_environment envv s0
  match read_cli_args args0 s1 with
  | (s, args) =>
    match s.public_key, s.private_key with
    | some pub, some priv =>
        if args.env then .ok (.envOutput pub priv)
        else
          match manage_cache args file envc s.cache_max_age with
          | .error e => .error e
          | .ok (d, inv) =>
              dispatch args envc s.cache_max_age mgr s.group_variables d inv file
    | some _, none => .error .credentialsMissing
    | none, _ => .error .credentialsMissing

/-- CLI parse result with no flags given (the plain `--list` default
run shape). -/
def argsDefault : Args :=
  Args.mk false none false false false false false false none none false false false none none

/-- CLI parse result for `--refresh-cache --images`. -/
def argsRefreshImages : Args :=
  Args.mk false none false false true false false false none none false true false none none

/-- CLI parse result for `--force-cache --cloudservers`. -/
def argsForceCloudservers : Args :=
  Args.mk false none false true false false false false none none true false false none none

/-- CLI parse result for `--cloudservers` alone. -/
def argsCloudservers : Args :=
  Args.mk false none false true false false false false none none false false false none none

/-- A concrete API client whose four collection calls return four
distinguishable values. -/
def mgrSample : AnetManager :=
  AnetManager.mk (.str "CS") (.str "IM") (.str "PL") (.str "SK") (fun _ => .dict .nil)

/-- A cache environment whose snapshot is stale for every non-negative
max age: the file exists but was modified 1000 seconds before now. -/
def envcStale : CacheEnv := CacheEnv.mk true 0 1000

/-- A cache environment whose snapshot is valid for max age 0 and
above: modification time 1000 seconds after the current clock. -/
def envcValid : CacheEnv := CacheEnv.mk true 1000 0

/-- An INI file with no options set. -/
def iniEmpty : IniConfig := IniConfig.mk none none none none none

/-- An INI file carrying both credentials. -/
def iniBoth : IniConfig := IniConfig.mk (some "ini-pub") (some "ini-priv") none none none

/-- An environment with neither credential variable set. -/
def envvNone : EnvVars := EnvVars.mk none none

/-- An environment with both `ANET_PUBLIC_KEY` and `ANET_PRIVATE_KEY`
set to non-empty values. -/
def envBothKeys : EnvVars := EnvVars.mk (some "env-pub") (some "env-priv")

/-- The cloudserver record of the spec's end-to-end scenario. -/
def web1Record : PyVal :=
  .dict (.ofList [
    (.str "id", .int 1),
    (.str "name", .str "web1"),
    (.str "vm_ip_address", .str "10.0.0.1"),
    (.str "vm_image", .str "img-1"),
    (.str "vm_image_display_name", .str "Ubuntu 20.04"),
    (.str "vm_plan_name", .str "small"),
    (.str "vm_status", .str "active")])

/-- The inventory the source actually builds from `web1Record` with
empty group variables (computed by `build_inventory` below): note the
dot kept by `to_safe` in `distro_Ubuntu_20.04`, the doubled host in
`image_img-1`, and the extra `image_Ubuntu_20.04` group. -/
def web1Inventory : PyDict :=
  .ofList [
    (.str "all", .dict (.ofList [
      (.str "hosts", .list (.ofList [.str "10.0.0.1"])),
      (.str "vars", .dict .nil)])),
    (.str "_meta", .dict (.ofList [(.str "hostvars", .dict .nil)])),
    (.int 1, .list (.ofList [.str "10.0.0.1"])),
    (.str "web1", .list (.ofList [.str "10.0.0.1"])),
    (.str "image_img-1", .dict (.ofList [
      (.str "hosts", .list (.ofList [.str "10.0.0.1", .str "10.0.0.1"])),
      (.str "vars", .dict .nil)])),
    (.str "plan_small", .dict (.ofList [
      (.str "hosts", .list (.ofList [.str "10.0.0.1"])),
      (.str "vars", .dict .nil)])),
    (.str "distro_Ubuntu_20.04", .dict (.ofList [
      (.str "hosts", .list (.ofList [.str "10.0.0.1"])),
      (.str "vars", .dict .nil)])),
    (.str "status_active", .dict (.ofList [
      (.str "hosts", .list (.ofList [.str "10.0.0.1"])),
      (.str "vars", .dict .nil)])),
    (.str "image_Ubuntu_20.04", .dict (.ofList [
      (.str "hosts", .list (.ofList [.str "10.0.0.1"])),
      (.str "vars", .dict .nil)]))]

/-- A parsed snapshot file with a non-empty `data` section, for
exercising cache management on a stale cache. -/
def snapshotSample : PyVal :=
  .dict (.ofList [
    (.str "data", .dict (.ofList [(.str "cloudservers", .list .nil)])),
    (.str "inventory", .dict .nil)])

/-- Decidable equality for `Except` results (needed to evaluate the
embedded operations on concrete inputs). -/
def exceptDecEq {e a : Type} [DecidableEq e] [DecidableEq a] :
    DecidableEq (Except e a) := fun x y =>
  match x, y with
  | .error e1, .error e2 =>
      if h : e1 = e2 then isTrue (by rw [h]) else
        isFalse (fun hh => by cases hh; exact h rfl)
  | .error _, .ok _ => isFalse (fun hh => by cases hh)
  | .ok _, .error _ => isFalse (fun hh => by cases hh)
  | .ok v1, .ok v2 =>
      if h : v1 = v2 then isTrue (by rw [h]) else
        isFalse (fun hh => by cases hh; exact h rfl)

instance {e a : Type} [DecidableEq e] [DecidableEq a] : DecidableEq (Except e a) :=
  exceptDecEq

theorem dictGet_dictSet_self : ∀ (es : PyDict) (k : PyKey) (v : PyVal),
    dictGet (dictSet es k v) k = some v
  | .nil, k, v => by simp [dictSet, dictGet]
  | .cons k0 v0 tl, k, v => by
      by_cases h : k0 = k
      · simp [dictSet, dictGet, h]
      · simp [dictSet, dictGet, h, dictGet_dictSet_self tl k v]

theorem dictGet_dictSet_ne : ∀ (es : PyDict) (k1 k2 : PyKey) (v : PyVal),
    k1 ≠ k2 → dictGet (dictSet es k1 v) k2 = dictGet es k2
  | .nil, k1, k2, v, h => by simp [dictSet, dictGet, h]
  | .cons k0 v0 tl, k1, k2, v, h => by
      by_cases h0 : k0 = k1
      · subst h0; simp [dictSet, dictGet, h]
      · by_cases h2 : k0 = k2 <;>
          simp [dictSet, dictGet, h0, h2, Ne.symm h,
            dictGet_dictSet_ne tl k1 k2 v h]

mutual
theorem jsonRoundTrip_id : ∀ (v : PyVal), strKeys v = true → jsonRoundTrip v = v
  | .str _, _ => rfl
  | .int _, _ => rfl
  | .boolean _, _ => rfl
  | .null, _ => rfl
  | .list xs, h => by
      simp only [jsonRoundTrip]
      rw [jsonRoundTripL_id xs (by simpa [strKeys] using h)]
  | .dict es, h => by
      simp only [jsonRoundTrip]
      rw [jsonRoundTripD_id es (by simpa [strKeys] using h)]

theorem jsonRoundTripL_id : ∀ (xs : PyList), strKeysL xs = true → jsonRoundTripL xs = xs
  | .nil, _ => rfl
  | .cons x xs, h => by
      have h1 : strKeys x = true ∧ strKeysL xs = true := by
        simpa [strKeysL, Bool.and_eq_true] using h
      simp only [jsonRoundTripL]
      rw [jsonRoundTrip_id x h1.1, jsonRoundTripL_id xs h1.2]

theorem jsonRoundTripD_id : ∀ (es : PyDict), strKeysD es = true → jsonRoundTripD es = es
  | .nil, _ => rfl
  | .cons (.str k) v tl, h => by
      have h1 : strKeys v = true ∧ strKeysD tl = true := by
        simpa [strKeysD, Bool.and_eq_true] using h
      simp only [jsonRoundTripD, dumpKey]
      rw [jsonRoundTrip_id v h1.1, jsonRoundTripD_id tl h1.2]
  | .cons (.int _) _ _, h => by simp [strKeysD] at h
end

/-- C5 (counterexample): `to_safe` applied to `"Ubuntu 20.04!!"` does
not return `"Ubuntu_20_04__"` — the regex class keeps the dot. -/
theorem to_safe_ubuntu_claimed_value_refuted :
    to_safe "Ubuntu 20.04!!" ≠ "Ubuntu_20_04__" := by decide

/-- C5 (amended): `to_safe "Ubuntu 20.04!!"` is `"Ubuntu_20.04__"` —
space and the two bangs become underscores, the dot is preserved, as
the regex class `[A-Za-z0-9\-\.]` includes the dot. -/
theorem to_safe_ubuntu_example :
    to_safe "Ubuntu 20.04!!" = "Ubuntu_20.04__" := by decide

/-- C2 (counterexample): a cache file whose contents do not parse as
JSON makes `load_from_cache` raise `ValueError` instead of installing
the empty snapshot — only `IOError` is caught. -/
theorem load_from_cache_unparsable_raises :
    load_from_cache CacheFile.badJson = .error PyError.valueError := by decide

/-- C2 (amended): if the cache file is missing or unreadable
(`IOError`), `load_from_cache` installs the empty snapshot
`{data: {}, inventory: {}}`; if its contents cannot be parsed as JSON,
the `ValueError` propagates and the load fails. -/
theorem load_from_cache_ioerror_empty :
    load_from_cache CacheFile.ioError = .ok (PyVal.dict .nil, PyVal.dict .nil) ∧
    load_from_cache CacheFile.badJson = .error PyError.valueError := by decide

/-- C7: for every max age `m ≥ 0`, `is_cache_valid` returns true iff
the snapshot file exists and `mod_time + m > current_time`; at the
boundary `mod_time + m = current_time` it returns false. -/
theorem is_cache_valid_iff_strict (env : CacheEnv) (m : Int) (hm : 0 ≤ m) :
    (is_cache_valid env m = true ↔
      env.file_is_present = true ∧ env.mod_time + m > env.current_time) ∧
    (env.mod_time + m = env.current_time → is_cache_valid env m = false) := by
  have hval : is_cache_valid env m =
      (env.file_is_present && decide (env.mod_time + m > env.current_time)) := by
    unfold is_cache_valid
    by_cases h1 : env.file_is_present <;>
      by_cases h2 : env.mod_time + m > env.current_time <;> simp [h1, h2]
  constructor
  · rw [hval]; simp
  · intro heq; rw [hval]; simp [heq]

/-- Witness for C7: a concrete valid cache (file exists, modified 10,
max age 5, current time 12). -/
theorem is_cache_valid_iff_strict_witness :
    is_cache_valid (CacheEnv.mk true 10 12) 5 = true :=
  ((is_cache_valid_iff_strict (CacheEnv.mk true 10 12) 5 (by decide)).1).mpr
    (by constructor <;> decide)

/-- C8: with `--force-cache` set, `load_from_atlantic_net` returns
immediately for every requested kind and every cache state: no fetch
call is recorded and the data state is untouched. -/
theorem force_cache_never_fetches (args : Args) (envc : CacheEnv) (m : Int)
    (mgr : AnetManager) (st : FetchState) (r : Option ResourceKind)
    (h : args.force_cache = true) :
    load_from_atlantic_net args envc m mgr st r = .ok (st, []) := by
  simp [load_from_atlantic_net, h]

/-- Witness for C8: `--force-cache --cloudservers` with a valid cache
and concrete data performs no fetch. -/
theorem force_cache_never_fetches_witness :
    load_from_atlantic_net argsForceCloudservers envcValid 0 mgrSample
      (FetchState.mk (.dict .nil) false) (some .cloudservers) =
      .ok (FetchState.mk (.dict .nil) false, []) :=
  force_cache_never_fetches argsForceCloudservers envcValid 0 mgrSample
    (FetchState.mk (.dict .nil) false) (some .cloudservers) rfl

/-- C1 (counterexample): with `--refresh-cache` set (force-cache off)
but a currently valid cache and the narrow request `images`,
`load_from_atlantic_net` returns before the refresh-cache widening:
zero kinds are fetched and the data is untouched, refuting "all four
kinds are fetched ... regardless of whether the cache is currently
valid". -/
theorem refresh_cache_valid_narrow_skips_fetch :
    load_from_atlantic_net argsRefreshImages envcValid 1 mgrSample
      (FetchState.mk (.dict .nil) false) (some .images) =
      .ok (FetchState.mk (.dict .nil) false, []) := by decide

/-- C1 (amended): with `--refresh-cache` set and force-cache off, if
additionally the cache is invalid or the requested kind is
`cloudservers` or all-kinds (the valid-cache short-circuit runs before
the widening), then all four kinds are fetched exactly once — the
recorded call list is exactly
`[cloudservers, images, plans, ssh_keys]` — and each result is stored
in the data set under its kind. -/
theorem refresh_cache_fetches_all_kinds (args : Args) (envc : CacheEnv)
    (m : Int) (mgr : AnetManager) (es : PyDict) (st : FetchState)
    (r : Option ResourceKind)
    (hrc : args.refresh_cache = true) (hfc : args.force_cache = false)
    (hdata : st.data = .dict es)
    (hgate : is_cache_valid envc m = false ∨ r = some .cloudservers ∨ r = none) :
    ∃ es2,
      load_from_atlantic_net args envc m mgr st r =
        .ok (FetchState.mk (.dict es2) true,
          [.cloudservers, .images, .plans, .ssh_keys]) ∧
      dictGet es2 (.str "cloudservers") = some mgr.all_active_cloudservers ∧
      dictGet es2 (.str "images") = some mgr.all_images ∧
      dictGet es2 (.str "plans") = some mgr.plans ∧
      dictGet es2 (.str "ssh_keys") = some mgr.all_ssh_keys := by
  obtain ⟨data, cr⟩ := st
  simp only at hdata
  subst hdata
  refine ⟨dictSet (dictSet (dictSet (dictSet es
      (.str "cloudservers") mgr.all_active_cloudservers)
      (.str "images") mgr.all_images)
      (.str "plans") mgr.plans)
      (.str "ssh_keys") mgr.all_ssh_keys, ?_, ?_, ?_, ?_, ?_⟩
  · rcases hgate with h | h | h <;>
      simp [load_from_atlantic_net, hfc, h, hrc, fetchStep, pySet]
  · rw [dictGet_dictSet_ne _ _ _ _ (by decide),
      dictGet_dictSet_ne _ _ _ _ (by decide),
      dictGet_dictSet_ne _ _ _ _ (by decide), dictGet_dictSet_self]
  · rw [dictGet_dictSet_ne _ _ _ _ (by decide),
      dictGet_dictSet_ne _ _ _ _ (by decide), dictGet_dictSet_self]
  · rw [dictGet_dictSet_ne _ _ _ _ (by decide), dictGet_dictSet_self]
  · rw [dictGet_dictSet_self]

/-- Witness for C1 (amended): `--refresh-cache --images` against a
stale cache fetches all four kinds exactly once. -/
theorem refresh_cache_fetches_all_kinds_witness :
    ∃ es2,
      load_from_atlantic_net argsRefreshImages envcStale 0 mgrSample
        (FetchState.mk (.dict .nil) false) (some .images) =
        .ok (FetchState.mk (.dict es2) true,
          [.cloudservers, .images, .plans, .ssh_keys]) ∧
      dictGet es2 (.str "cloudservers") = some mgrSample.all_active_cloudservers ∧
      dictGet es2 (.str "images") = some mgrSample.all_images ∧
      dictGet es2 (.str "plans") = some mgrSample.plans ∧
      dictGet es2 (.str "ssh_keys") = some mgrSample.all_ssh_keys :=
  refresh_cache_fetches_all_kinds argsRefreshImages envcStale 0 mgrSample
    .nil (FetchState.mk (.dict .nil) false) (some .images)
    rfl rfl rfl (Or.inl (by decide))

/-- C3 (the failing input, evaluated): with an empty INI file, both
`ANET_PUBLIC_KEY` and `ANET_PRIVATE_KEY` set in the environment, and
no credential CLI arguments, `read_environment` stores both values
into `api_token` (the second overwriting the first) and leaves
`public_key`/`private_key` unset, so the run takes the
missing-credentials non-zero exit — contradicting the claimed
precedence (and the script's own docstring). -/
theorem env_credentials_stored_in_api_token :
    (read_environment envBothKeys initialSettings).public_key = none ∧
    (read_environment envBothKeys initialSettings).private_key = none ∧
    (read_environment envBothKeys initialSettings).api_token = some "env-priv" ∧
    run iniEmpty envBothKeys argsDefault CacheFile.ioError envcStale mgrSample =
      .error RunError.credentialsMissing := by decide

/-- C4 (amended): the inventory the source builds from the scenario's
one-record cloudserver list with empty group variables is
`web1Inventory`: the same as the claimed inventory except that the
distro group is `distro_Ubuntu_20.04` (dot kept by `to_safe`), the
`image_img-1` host list contains the address twice (the
"not always present" image loop appends it again), and an extra group
`image_Ubuntu_20.04` (from the display name) is present. -/
theorem build_inventory_web1_scenario :
    build_inventory (.dict .nil) (.cons web1Record .nil) = .ok web1Inventory := by
  decide

/-- C4 (counterexample): in the inventory actually built from the
scenario input, the claimed group `distro_Ubuntu_20_04` does not
exist (the built one is `distro_Ubuntu_20.04`), the group
`image_Ubuntu_20.04` — absent from the claimed inventory — exists,
and `image_img-1` lists the address twice rather than exactly once. -/
theorem build_inventory_web1_scenario_refuted :
    build_inventory (.dict .nil) (.cons web1Record .nil) = .ok web1Inventory ∧
    dictGet web1Inventory (.str "distro_Ubuntu_20_04") = none ∧
    dictGet web1Inventory (.str "distro_Ubuntu_20.04") =
      some (.dict (.ofList [(.str "hosts", .list (.ofList [.str "10.0.0.1"])),
        (.str "vars", .dict .nil)])) ∧
    dictGet web1Inventory (.str "image_Ubuntu_20.04") =
      some (.dict (.ofList [(.str "hosts", .list (.ofList [.str "10.0.0.1"])),
        (.str "vars", .dict .nil)])) ∧
    dictGet web1Inventory (.str "image_img-1") =
      some (.dict (.ofList [(.str "hosts",
        .list (.ofList [.str "10.0.0.1", .str "10.0.0.1"])),
        (.str "vars", .dict .nil)])) := by decide

/-- C6 (counterexample): saving a snapshot whose inventory has the
int key `1` (as the builder produces for a cloudserver id) and loading
it back yields an inventory keyed by the string `"1"` instead — the
reloaded snapshot is not deep-equal to the original, since the
original's int key is gone. -/
theorem save_load_int_key_not_roundtripped :
    load_from_cache (write_to_cache (PyVal.dict .nil)
        (.dict (.cons (.int 1) (.list (.cons (.str "10.0.0.1") .nil)) .nil))) =
      .ok (PyVal.dict .nil,
        .dict (.cons (.str "1") (.list (.cons (.str "10.0.0.1") .nil)) .nil)) ∧
    dictGet (.cons (.str "1") (.list (.cons (.str "10.0.0.1") .nil)) .nil)
      (.int 1) = none ∧
    (PyVal.dict (.cons (.str "1") (.list (.cons (.str "10.0.0.1") .nil)) .nil)) ≠
      (PyVal.dict (.cons (.int 1) (.list (.cons (.str "10.0.0.1") .nil)) .nil)) := by
  decide

/-- C6 (amended): for snapshots all of whose dict keys (at every
depth) are strings, `save` followed by `load` restores the snapshot
exactly; int keys (such as the builder's id groups) come back as their
decimal strings. -/
theorem save_load_roundtrip_string_keys (d inv : PyVal)
    (hd : strKeys d = true) (hi : strKeys inv = true) :
    load_from_cache (write_to_cache d inv) = .ok (d, inv) := by
  simp [write_to_cache, load_from_cache, snapshot_assign, jsonRoundTrip,
    jsonRoundTripD, dumpKey, jsonRoundTrip_id d hd, jsonRoundTrip_id inv hi,
    pyGet, dictGet]

/-- Witness for C6 (amended): a concrete string-keyed snapshot
round-trips. -/
theorem save_load_roundtrip_string_keys_witness :
    load_from_cache (write_to_cache
        (.dict (.cons (.str "cloudservers") (.list .nil) .nil))
        (PyVal.dict .nil)) =
      .ok (.dict (.cons (.str "cloudservers") (.list .nil) .nil),
        PyVal.dict .nil) :=
  save_load_roundtrip_string_keys
    (.dict (.cons (.str "cloudservers") (.list .nil) .nil))
    (PyVal.dict .nil) (by decide) (by decide)

/-- C10: on an invocation reaching cache management, a parsed snapshot
file's data and inventory are installed into the in-memory state even
when the cache is stale (`is_cache_valid` false): the startup guard
tests the validity method object itself, which is always truthy, so
the configured max age never prevents the initial load.  (Dispatching
a view happens only after `manage_cache` returns in `run`.) -/
theorem stale_cache_still_loaded (args : Args) (envc : CacheEnv) (m : Int)
    (v d inv : PyVal) (n : Nat)
    (hstale : is_cache_valid envc m = false)
    (hload : load_from_cache (.parsed v) = .ok (d, inv))
    (hlen : pyLen d = .ok n)
    (hexit : (n == 0 && args.force_cache) = false) :
    manage_cache args (.parsed v) envc m = .ok (d, inv) := by
  simp [manage_cache, is_cache_valid_method_truthy, hload, hlen, hexit]

/-- Witness for C10: a concrete stale snapshot (modified 1000 seconds
before now, max age 0) still gets its data and inventory installed. -/
theorem stale_cache_still_loaded_witness :
    manage_cache argsDefault (.parsed snapshotSample) envcStale 0 =
      .ok (.dict (.cons (.str "cloudservers") (.list .nil) .nil), .dict .nil) :=
  stale_cache_still_loaded argsDefault envcStale 0 snapshotSample
    (.dict (.cons (.str "cloudservers") (.list .nil) .nil)) (.dict .nil) 1
    (by decide) (by decide) (by decide) (by decide)

theorem fetchStep_calls_spec (cond : Bool) (key : String) (f : PyVal)
    (kind : ResourceKind) (acc : Except PyError (FetchState × List ResourceKind))
    (st0 : FetchState)
    (hacc : ∀ st1 c1, acc = .ok (st1, c1) →
      st1.cache_refreshed = (st0.cache_refreshed || !c1.isEmpty) ∧
      (c1 = [] → st1 = st0)) :
    ∀ st2 c2, fetchStep cond key f kind acc = .ok (st2, c2) →
      st2.cache_refreshed = (st0.cache_refreshed || !c2.isEmpty) ∧
      (c2 = [] → st2 = st0) := by
  intro st2 c2 h
  cases hc : acc with
  | error e => rw [hc] at h; simp [fetchStep] at h
  | ok p =>
      obtain ⟨st1, c1⟩ := p
      have h1 := hacc st1 c1 hc
      rw [hc] at h
      simp only [fetchStep] at h
      by_cases hcond : cond
      · rw [if_pos hcond] at h
        cases hset : pySet st1.data (.str key) f with
        | error e => rw [hset] at h; simp at h
        | ok dd =>
            rw [hset] at h
            simp only [Except.ok.injEq, Prod.mk.injEq] at h
            obtain ⟨hst, hcalls⟩ := h
            subst hst; subst hcalls
            constructor
            · simp
            · intro hnil; simp at hnil
      · rw [if_neg hcond] at h
        simp only [Except.ok.injEq, Prod.mk.injEq] at h
        obtain ⟨hst, hcalls⟩ := h
        subst hst; subst hcalls
        exact h1

theorem load_from_atlantic_net_calls_spec (args : Args) (envc : CacheEnv)
    (m : Int) (mgr : AnetManager) (st : FetchState) (r : Option ResourceKind)
    (st2 : FetchState) (calls : List ResourceKind)
    (h : load_from_atlantic_net args envc m mgr st r = .ok (st2, calls)) :
    st2.cache_refreshed = (st.cache_refreshed || !calls.isEmpty) ∧
    (calls = [] → st2 = st) := by
  have base : ∀ st1 c1,
      (Except.ok (st, ([] : List ResourceKind)) :
        Except PyError (FetchState × List ResourceKind)) = .ok (st1, c1) →
      st1.cache_refreshed = (st.cache_refreshed || !c1.isEmpty) ∧
      (c1 = [] → st1 = st) := by
    intro st1 c1 heq
    simp only [Except.ok.injEq, Prod.mk.injEq] at heq
    obtain ⟨hst, hcalls⟩ := heq
    subst hst; subst hcalls
    simp
  by_cases hfc : args.force_cache
  · simp only [load_from_atlantic_net, hfc, if_true] at h
    exact base st2 calls h
  · by_cases hcv : (is_cache_valid envc m &&
        !(r == some ResourceKind.cloudservers || r == none)) = true
    · simp only [load_from_atlantic_net, hfc, hcv] at h
      simp only [Bool.false_eq_true, if_false, if_true] at h
      exact base st2 calls h
    · have hcv2 : (is_cache_valid envc m &&
          !(r == some ResourceKind.cloudservers || r == none)) = false := by
        revert hcv
        cases is_cache_valid envc m &&
          !(r == some ResourceKind.cloudservers || r == none) <;> simp
      simp only [load_from_atlantic_net, hfc, hcv2] at h
      simp only [Bool.false_eq_true, if_false] at h
      exact fetchStep_calls_spec _ _ _ _ _ st
        (fetchStep_calls_spec _ _ _ _ _ st
          (fetchStep_calls_spec _ _ _ _ _ st
            (fetchStep_calls_spec _ _ _ _ _ st base)))
        st2 calls h

theorem finish_spec (st : FetchState) (inv j : PyVal) (calls : List ResourceKind)
    (file : CacheFile) (j2 : PyVal) (fs : List ResourceKind) (wrote : Bool)
    (ff : CacheFile)
    (hcr : st.cache_refreshed = !calls.isEmpty)
    (h : finish st inv j calls file = .output j2 fs wrote ff) :
    (wrote = true ↔ fs ≠ []) ∧ (fs = [] → ff = file) := by
  unfold finish at h
  rw [hcr] at h
  cases calls with
  | nil =>
      simp only [List.isEmpty_nil, Bool.not_true, Bool.false_eq_true, if_false,
        RunOutcome.output.injEq] at h
      obtain ⟨_, hfs, hw, hff⟩ := h
      subst hfs; subst hw; subst hff
      simp
  | cons c cs =>
      simp only [List.isEmpty_cons, Bool.not_false, if_true,
        RunOutcome.output.injEq] at h
      obtain ⟨_, hfs, hw, hff⟩ := h
      subst hfs; subst hw
      constructor
      · simp
      · intro hnil; simp at hnil

theorem view_resource_spec (args : Args) (envc : CacheEnv) (m : Int)
    (mgr : AnetManager) (d inv : PyVal) (file : CacheFile) (key : String)
    (k : ResourceKind) (j : PyVal) (fs : List ResourceKind) (wrote : Bool)
    (ff : CacheFile)
    (h : view_resource args envc m mgr (FetchState.mk d false) inv file key k =
      .ok (.output j fs wrote ff)) :
    (wrote = true ↔ fs ≠ []) ∧ (fs = [] → ff = file) := by
  unfold view_resource at h
  cases hl : load_from_atlantic_net args envc m mgr (FetchState.mk d false) (some k) with
  | error e => rw [hl] at h; simp at h
  | ok p =>
      obtain ⟨st, calls⟩ := p
      rw [hl] at h
      dsimp only at h
      have hspec := load_from_atlantic_net_calls_spec _ _ _ _ _ _ _ _ hl
      cases hg : pyGet st.data (.str key) with
      | error e => rw [hg] at h; simp at h
      | ok v =>
          rw [hg] at h
          simp only [Except.ok.injEq] at h
          exact finish_spec st inv _ calls file j fs wrote ff
            (by simpa using hspec.1) h

theorem dispatch_spec (args : Args) (envc : CacheEnv) (m : Int)
    (mgr : AnetManager) (gv d inv : PyVal) (file : CacheFile)
    (j : PyVal) (fs : List ResourceKind) (wrote : Bool) (ff : CacheFile)
    (h : dispatch args envc m mgr gv d inv file = .ok (.output j fs wrote ff)) :
    (wrote = true ↔ fs ≠ []) ∧ (fs = [] → ff = file) := by
  simp only [dispatch] at h
  by_cases h1 : args.cloudservers = true
  · rw [if_pos h1] at h; exact view_resource_spec _ _ _ _ _ _ _ _ _ _ _ _ _ h
  rw [if_neg h1] at h
  by_cases h2 : args.images = true
  · rw [if_pos h2] at h; exact view_resource_spec _ _ _ _ _ _ _ _ _ _ _ _ _ h
  rw [if_neg h2] at h
  by_cases h3 : args.plans = true
  · rw [if_pos h3] at h; exact view_resource_spec _ _ _ _ _ _ _ _ _ _ _ _ _ h
  rw [if_neg h3] at h
  by_cases h4 : args.ssh_keys = true
  · rw [if_pos h4] at h; exact view_resource_spec _ _ _ _ _ _ _ _ _ _ _ _ _ h
  rw [if_neg h4] at h
  by_cases h5 : args.all = true
  · rw [if_pos h5] at h
    cases hl : load_from_atlantic_net args envc m mgr (FetchState.mk d false) none with
    | error e => rw [hl] at h; simp at h
    | ok p =>
        obtain ⟨st, calls⟩ := p
        rw [hl] at h
        have hspec := load_from_atlantic_net_calls_spec _ _ _ _ _ _ _ _ hl
        simp only [Except.ok.injEq] at h
        exact finish_spec st inv _ calls file j fs wrote ff
          (by simpa using hspec.1) h
  rw [if_neg h5] at h
  by_cases h6 : optTruthy args.host = true
  · rw [if_pos h6] at h
    cases hh : load_cloudserver_variables_for_host args mgr with
    | error e => rw [hh] at h; simp at h
    | ok j2 =>
        rw [hh] at h
        simp only [Except.ok.injEq] at h
        exact finish_spec (FetchState.mk d false) inv _ [] file j fs wrote ff
          (by simp) h
  rw [if_neg h6] at h
  cases hl : load_from_atlantic_net args envc m mgr (FetchState.mk d false)
      (some .cloudservers) with
  | error e => rw [hl] at h; simp at h
  | ok p =>
      obtain ⟨st, calls⟩ := p
      rw [hl] at h
      dsimp only at h
      have hspec := load_from_atlantic_net_calls_spec _ _ _ _ _ _ _ _ hl
      cases hg : pyGet st.data (.str "cloudservers") with
      | error e => rw [hg] at h; simp at h
      | ok csv =>
          rw [hg] at h
          cases csv with
          | list css =>
              dsimp only at h
              cases hb : build_inventory gv css with
              | error e => rw [hb] at h; simp at h
              | ok invD =>
                  rw [hb] at h
                  simp only [Except.ok.injEq] at h
                  exact finish_spec st (.dict invD) _ calls file j fs wrote ff
                    (by simpa using hspec.1) h
          | str s => simp at h
          | int n => simp at h
          | boolean b => simp at h
          | null => simp at h
          | dict es => simp at h

/-- C9: for every run that completes and serves a view, the cache
snapshot file is written iff at least one resource kind was fetched
during the run, and when no fetch occurred the cache file is left
unchanged.  (An aborted run never reaches the write: `write_to_cache`
is only invoked from the final write-back decision.) -/
theorem cache_written_iff_fetched (ini : IniConfig) (envv : EnvVars)
    (args0 : Args) (file : CacheFile) (envc : CacheEnv) (mgr : AnetManager)
    (j : PyVal) (fs : List ResourceKind) (wrote : Bool) (ff : CacheFile)
    (h : run ini envv args0 file envc mgr = .ok (.output j fs wrote ff)) :
    (wrote = true ↔ fs ≠ []) ∧ (fs = [] → ff = file) := by
  simp only [run] at h
  rcases hsa : read_cli_args args0
      (read_environment envv (read_settings ini initialSettings)) with ⟨s, args⟩
  rw [hsa] at h
  dsimp only at h
  cases hpk : s.public_key with
  | none => rw [hpk] at h; simp at h
  | some pub =>
      rw [hpk] at h
      cases hpr : s.private_key with
      | none => rw [hpr] at h; simp at h
      | some priv =>
          rw [hpr] at h
          dsimp only at h
          by_cases henv : args.env = true
          · rw [if_pos henv] at h; simp at h
          · rw [if_neg henv] at h
            cases hmc : manage_cache args file envc s.cache_max_age with
            | error e => rw [hmc] at h; simp at h
            | ok p =>
                obtain ⟨d, inv⟩ := p
                rw [hmc] at h
                exact dispatch_spec _ _ _ _ _ _ _ _ _ _ _ _ h

/-- Witness for C9: a concrete completed `--cloudservers` run against
a stale, missing-on-disk cache fetches exactly the cloudservers kind
and writes the snapshot. -/
theorem cache_written_iff_fetched_witness :
    ((true = true) ↔ ([ResourceKind.cloudservers] : List ResourceKind) ≠ []) ∧
    (([ResourceKind.cloudservers] : List ResourceKind) = [] →
      write_to_cache (.dict (.cons (.str "cloudservers") (.str "CS") .nil))
        (.dict .nil) = CacheFile.ioError) :=
  cache_written_iff_fetched iniBoth envvNone argsCloudservers .ioError envcStale
    mgrSample (.dict (.cons (.str "cloudservers") (.str "CS") .nil))
    [.cloudservers] true
    (write_to_cache (.dict (.cons (.str "cloudservers") (.str "CS") .nil))
      (.dict .nil))
    (by decide)
